import Mathlib

/-!
Verification development for the chatroom client (`src/web/static/js/res.js`).

The file contains two near-identical copies of the client code (an RSA
handshake `Res.rs.work`, a secure request protocol `Res.api.work`, the
`Eec` crypto helpers and the shared mutable `State`).  We shallowly embed
both copies.  Browser built-ins (`crypto.subtle`, `btoa`/`atob`,
`TextEncoder`/`TextDecoder`, `JSON.parse`/`JSON.stringify`) are external
collaborators and are modelled as fields of a `Browser` parameter; the
repository's own glue code (validation, slicing, envelope construction,
state updates, error handling) is translated directly from the source.
Randomness (the GCM IV, the generated RSA keypair) is passed in as an
explicit argument, and the HTTP transport is determinized by passing the
response as an argument.
-/

namespace Chatroom

set_option maxRecDepth 65536

mutual

/-- JavaScript runtime values, as far as the client manipulates them:
JSON values plus `undefined` and `Error` objects. -/
inductive JsVal : Type where
  | jnull : JsVal
  | jundefined : JsVal
  | jbool (b : Bool) : JsVal
  | jnum (n : Int) : JsVal
  | jstr (s : String) : JsVal
  | jobj (fields : JsFields) : JsVal
  | jarr (elems : JsArr) : JsVal
  | jerr (msg : String) : JsVal

inductive JsFields : Type where
  | nil : JsFields
  | cons (key : String) (val : JsVal) (rest : JsFields) : JsFields

inductive JsArr : Type where
  | nil : JsArr
  | cons (v : JsVal) (rest : JsArr) : JsArr

end

/-- JavaScript truthiness, as used by `if (!S.aes_key)` etc. -/
def truthy : JsVal → Bool
  | .jnull => false
  | .jundefined => false
  | .jbool b => b
  | .jnum n => decide (n ≠ 0)
  | .jstr s => decide (s ≠ "")
  | .jobj _ => true
  | .jarr _ => true
  | .jerr _ => true

/-- Property lookup in an object literal (our constructions never carry
duplicate keys, so first match suffices); missing keys give `undefined`. -/
def lookupField : JsFields → String → JsVal
  | .nil, _ => .jundefined
  | .cons k v rest, key => if k = key then v else lookupField rest key

/-- `v.k`: property access.  `none` models the `TypeError` thrown when the
base is `null` or `undefined`; primitives yield `undefined` for the
property names the client reads. -/
def getProp : JsVal → String → Option JsVal
  | .jnull, _ => none
  | .jundefined, _ => none
  | .jobj fs, key => some (lookupField fs key)
  | _, _ => some .jundefined

/-- Property access where the base is known not to be nullish. -/
def propOrUndef (v : JsVal) (key : String) : JsVal :=
  (getProp v key).getD .jundefined

mutual

/-- JavaScript `ToString` coercion for the values the client can pass to
string-expecting built-ins. -/
def jsToString : JsVal → String
  | .jnull => "null"
  | .jundefined => "undefined"
  | .jbool b => cond b "true" "false"
  | .jnum n => toString n
  | .jstr s => s
  | .jobj _ => "[object Object]"
  | .jarr es => jsArrString es
  | .jerr m => "Error: " ++ m

/-- `Array.prototype.toString`: elements joined with `,`, where `null` and
`undefined` elements print as the empty string. -/
def jsArrString : JsArr → String
  | .nil => ""
  | .cons v rest =>
    (match v with
     | .jnull => ""
     | .jundefined => ""
     | w => jsToString w) ++
    (match rest with
     | .nil => ""
     | r => "," ++ jsArrString r)

end

/-- The browser/provider collaborators the client calls.  Each field is one
built-in: `Option` results model the built-in throwing. -/
structure Browser : Type where
  /-- `new TextEncoder().encode` (UTF-8). -/
  utf8Encode : String → List Nat
  /-- `new TextDecoder(encoding).decode` (non-fatal mode: total). -/
  utf8Decode : List Nat → String
  /-- `btoa(String.fromCharCode(...bytes))`. -/
  btoa : List Nat → String
  /-- `atob`; `none` models `InvalidCharacterError`. -/
  atob : String → Option (List Nat)
  /-- `crypto.subtle.encrypt(AES-GCM)`: key, iv, plaintext ↦ ciphertext ++ 16-byte tag. -/
  gcmEncrypt : List Nat → List Nat → List Nat → List Nat
  /-- `crypto.subtle.decrypt(AES-GCM)`: `none` models `OperationError` (tag failure). -/
  gcmDecrypt : List Nat → List Nat → List Nat → Option (List Nat)
  /-- `crypto.subtle.digest("SHA-256")`. -/
  digest : List Nat → List Nat
  /-- `crypto.subtle.decrypt(RSA-OAEP)` with the private half of a keypair handle. -/
  rsaDecrypt : Nat → List Nat → Option (List Nat)
  /-- `crypto.subtle.exportKey("spki")` of a keypair handle's public half. -/
  exportSpki : Nat → List Nat
  /-- `JSON.stringify`. -/
  stringify : JsVal → String
  /-- `JSON.parse`; `none` models `SyntaxError`. -/
  jsonParse : String → Option JsVal

/-- The `{iv, data, tag}` object returned by `Eec.Aes.Gcm.encryptStr` /
`encryptBytes` (all three fields Base64 text). -/
structure Blob : Type where
  iv : String
  data : String
  tag : String

/-- Log entry for one `crypto.subtle` call, used to state that validation
happens before any provider call. -/
inductive PCall : Type where
  | importKey (keyBytes : List Nat) : PCall
  | encrypt (iv data : List Nat) : PCall
  | decrypt (iv data : List Nat) : PCall
  | digest (data : List Nat) : PCall

/-- `Eec.Aes.Gcm.encryptStr(data, key)` (lines 483-529 and 1087-1133,
identical in both copies).  The random IV is the explicit `ivr` argument;
the second component logs the `crypto.subtle` calls made.  `none` models
the `catch` branch returning `{}`. -/
def encryptStr (B : Browser) (ivr : List Nat) (data key : String) :
    Option Blob × List PCall :=
  let keyBytes := B.utf8Encode key
  if keyBytes.length = 16 ∨ keyBytes.length = 24 ∨ keyBytes.length = 32 then
    let dataBytes := B.utf8Encode data
    let encrypted := B.gcmEncrypt keyBytes ivr dataBytes
    let ciphertext := encrypted.take (encrypted.length - 16)
    let tag := encrypted.drop (encrypted.length - 16)
    (some { iv := B.btoa ivr, data := B.btoa ciphertext, tag := B.btoa tag },
     [.importKey keyBytes, .encrypt ivr dataBytes])
  else (none, [])

/-- `Eec.Aes.Gcm.decryptStr(data, iv, tag, key)` (lines 540-583 and
1144-1187).  The `catch` branch returns the empty string, so `""` is the
failure sentinel, exactly as in the source. -/
def decryptStr (B : Browser) (data iv tag key : String) :
    String × List PCall :=
  let keyBytes := B.utf8Encode key
  if keyBytes.length = 16 ∨ keyBytes.length = 24 ∨ keyBytes.length = 32 then
    match B.atob iv with
    | none => ("", [.importKey keyBytes])
    | some ivBytes =>
      match B.atob data with
      | none => ("", [.importKey keyBytes])
      | some ciphertextBytes =>
        match B.atob tag with
        | none => ("", [.importKey keyBytes])
        | some tagBytes =>
          let encryptedData := ciphertextBytes ++ tagBytes
          match B.gcmDecrypt keyBytes ivBytes encryptedData with
          | none => ("", [.importKey keyBytes, .decrypt ivBytes encryptedData])
          | some pt =>
            (B.utf8Decode pt, [.importKey keyBytes, .decrypt ivBytes encryptedData])
  else ("", [])

/-- `Eec.Aes.Gcm.encryptBytes(data, key)` (lines 592-636 and 1196-1240). -/
def encryptBytes (B : Browser) (ivr : List Nat) (data : List Nat) (key : String) :
    Option Blob × List PCall :=
  let keyBytes := B.utf8Encode key
  if keyBytes.length = 16 ∨ keyBytes.length = 24 ∨ keyBytes.length = 32 then
    let encrypted := B.gcmEncrypt keyBytes ivr data
    let ciphertext := encrypted.take (encrypted.length - 16)
    let tag := encrypted.drop (encrypted.length - 16)
    (some { iv := B.btoa ivr, data := B.btoa ciphertext, tag := B.btoa tag },
     [.importKey keyBytes, .encrypt ivr data])
  else (none, [])

/-- `Eec.Aes.Gcm.decryptBytes(data, iv, tag, key)` (lines 647-689 and
1251-1293).  The `catch` branch returns an empty `Uint8Array`, so `[]` is
the failure sentinel. -/
def decryptBytes (B : Browser) (data iv tag key : String) :
    List Nat × List PCall :=
  let keyBytes := B.utf8Encode key
  if keyBytes.length = 16 ∨ keyBytes.length = 24 ∨ keyBytes.length = 32 then
    match B.atob iv with
    | none => ([], [.importKey keyBytes])
    | some ivBytes =>
      match B.atob data with
      | none => ([], [.importKey keyBytes])
      | some ciphertextBytes =>
        match B.atob tag with
        | none => ([], [.importKey keyBytes])
        | some tagBytes =>
          let encryptedData := ciphertextBytes ++ tagBytes
          match B.gcmDecrypt keyBytes ivBytes encryptedData with
          | none => ([], [.importKey keyBytes, .decrypt ivBytes encryptedData])
          | some pt => (pt, [.importKey keyBytes, .decrypt ivBytes encryptedData])
  else ([], [])

/-- `b.toString(16)` for a byte value (lowercase hex, `"0"` for zero). -/
def jsHexStr (b : Nat) : List Char := Nat.toDigits 16 b

/-- `.padStart(2, '0')`. -/
def pad2 (l : List Char) : List Char :=
  if l.length < 2 then List.replicate (2 - l.length) '0' ++ l else l

/-- One byte rendered as in `b.toString(16).padStart(2, '0')`. -/
def hexPair (b : Nat) : List Char := pad2 (jsHexStr b)

/-- `bytes.map(b => b.toString(16).padStart(2,'0')).join('')`. -/
def hexOf (bytes : List Nat) : String :=
  String.mk (bytes.flatMap hexPair)

/-- `Eec.Hash.sha256(data)` (lines 320-331 and 924-935): UTF-8 encode,
digest, hex-encode.  The digest collaborator is total here, so the
`catch`-returns-`""` branch of the source is unreachable in the model. -/
def sha256model (B : Browser) (data : String) : String :=
  hexOf (B.digest (B.utf8Encode data))

/-- The `RSA` class instance stored in `S.rsa`: constructor defaults plus
the keypair handle set by `init()` (lines 146-182 and 750-786). -/
structure RSAObj : Type where
  name : String
  hash : String
  key : Option Nat

/-- The shared mutable `State` (lines 1299-1309): all four fields start
`null`. -/
structure State : Type where
  rsa : Option RSAObj
  aes_key : JsVal
  pubPem : JsVal
  session_user : JsVal

/-- `new State()`. -/
def initialState : State :=
  { rsa := none, aes_key := .jnull, pubPem := .jnull, session_user := .jnull }

/-- An HTTP response as the client observes it: the status code and the
result of `res.json()` (`none` when the body is not valid JSON). -/
structure HttpResp : Type where
  status : Nat
  body : Option JsVal

/-- What a call to `fetch("/api", ...)` put on the wire: the
`session_user` header, the outer envelope object and its serialization. -/
structure Sent : Type where
  session_user : String
  envelope : JsVal
  payload : String

/-- Observable outcome of one `Res.api.work` call: the returned triple,
the final channel state, what (if anything) was POSTed, and the exception
the `catch` block received (if any). -/
structure WorkOut : Type where
  ret : JsVal × JsVal × JsVal
  state : State
  sent : Option Sent
  caught : Option JsVal

/-- The `catch (e)` branch of `Res.api.work`: the first copy (line 124)
returns `[false, "error", 999]`, the second copy (line 1436) returns
`[false, e, 999]`. -/
def failOut (rawErr : Bool) (st : State) (snt : Option Sent) (e : JsVal) : WorkOut :=
  { ret := (.jbool false, if rawErr then e else .jstr "error", .jnum 999),
    state := st, sent := snt, caught := some e }

/-- `Res.api.check` (first copy, lines 127-132: requires `aes_key` and
`session_user`; second copy, lines 1439-1444: requires only `aes_key`).
`strict = true` selects the first copy. -/
def checkModel (strict : Bool) (s : State) : Bool :=
  truthy s.aes_key && (!strict || truthy s.session_user)

/-- The decrypted response string: `Eec.Aes.Gcm.decryptStr(data, iv, tag,
S.aes_key)` applied to the destructured fields of `result.data`, with the
JS string coercions the built-ins perform. -/
def decStrOf (B : Browser) (rd : JsVal) (keyStr : String) : String :=
  (decryptStr B (jsToString (propOrUndef rd "data")) (jsToString (propOrUndef rd "iv"))
    (jsToString (propOrUndef rd "tag")) keyStr).1

/-- `Res.api.work` from the `fetch` onward (lines 104-122 and 1416-1434):
status check, `res.json()`, destructuring `result.data`, decryption, JSON
parse, key rotation, and the success triple.  `s1` already carries the
`session_user` written before the `fetch`; `keyStr` is the pre-call key
string used for decryption. -/
def apiTail (rawErr : Bool) (B : Browser) :
    Option HttpResp → State → String → Sent → WorkOut
  | none, s1, _, snt => failOut rawErr s1 (some snt) (.jerr "Failed to fetch")
  | some r, s1, keyStr, snt =>
    if 200 ≤ r.status ∧ r.status < 300 then
      match r.body with
      | none => failOut rawErr s1 (some snt) (.jerr "SyntaxError")
      | some result =>
        match getProp result "data" with
        | none => failOut rawErr s1 (some snt) (.jerr "TypeError")
        | some rd =>
          match rd with
          | .jnull => failOut rawErr s1 (some snt) (.jerr "TypeError")
          | .jundefined => failOut rawErr s1 (some snt) (.jerr "TypeError")
          | _ =>
            match B.jsonParse (decStrOf B rd keyStr) with
            | none => failOut rawErr s1 (some snt) (.jerr "SyntaxError")
            | some parsed =>
              match getProp parsed "key" with
              | none => failOut rawErr s1 (some snt) (.jerr "TypeError")
              | some k =>
                { ret := (propOrUndef parsed "data", propOrUndef result "message",
                          propOrUndef result "code"),
                  state := { s1 with aes_key := k },
                  sent := some snt, caught := none }
    else failOut rawErr s1 (some snt) (.jerr ("HTTP 错误: " ++ toString r.status))

/-- The value `parsed.key` extracted along the success path of the tail:
mirrors `apiTail` branch for branch (`jundefined` on paths that throw). -/
def tailRespKey (B : Browser) : Option HttpResp → String → JsVal
  | none, _ => .jundefined
  | some r, keyStr =>
    if 200 ≤ r.status ∧ r.status < 300 then
      match r.body with
      | none => .jundefined
      | some result =>
        match getProp result "data" with
        | none => .jundefined
        | some rd =>
          match rd with
          | .jnull => .jundefined
          | .jundefined => .jundefined
          | _ =>
            match B.jsonParse (decStrOf B rd keyStr) with
            | none => .jundefined
            | some parsed =>
              match getProp parsed "key" with
              | none => .jundefined
              | some k => k
    else .jundefined

/-- The error message of `Res.api.check`'s throw (both copies). -/
def chanErrMsg : String := "无有效的加密通道（缺少 AES 密钥或会话用户）"

/-- `Res.api.work(operate, args, algorithm, message)`.  `strictCheck` and
`rawErr` select between the two source copies (first copy: lines 49-126;
second copy: lines 1361-1438).  When `algorithm` is non-empty the entire
compression branch is commented out in the source, so `content` stays
`undefined` and the call still proceeds to the `fetch`. -/
def apiWorkCore (strictCheck rawErr : Bool) (B : Browser) (ivr : List Nat)
    (resp : Option HttpResp) (s : State) (operate : String) (args : JsVal)
    (algorithm message : String) : WorkOut :=
  if checkModel strictCheck s then
    let secondLayer : JsVal := .jobj (.cons "operate" (.jstr operate) (.cons "args" args .nil))
    let jsonString := B.stringify secondLayer
    let content : JsVal :=
      if algorithm = "" then
        match (encryptStr B ivr jsonString (jsToString s.aes_key)).1 with
        | some blob =>
          .jobj (.cons "iv" (.jstr blob.iv) (.cons "data" (.jstr blob.data)
            (.cons "tag" (.jstr blob.tag) .nil)))
        | none => .jobj .nil
      else .jundefined
    let firstLayer : JsVal :=
      .jobj (.cons "message" (.jstr message)
        (.cons "compression" (.jbool (algorithm ≠ ""))
          (.cons "algorithm" (.jstr algorithm)
            (.cons "content" content .nil))))
    let su := sha256model B (jsToString s.aes_key)
    apiTail rawErr B resp { s with session_user := .jstr su } (jsToString s.aes_key)
      { session_user := su, envelope := firstLayer, payload := B.stringify firstLayer }
  else
    failOut rawErr s none (.jerr chanErrMsg)

/-- The first copy of `Res.api.work` (lines 49-126). -/
def apiWork1 := apiWorkCore true false

/-- The second copy of `Res.api.work` (lines 1361-1438), the one the
running page uses. -/
def apiWork2 := apiWorkCore false true

/-- Inputs to one request/response cycle: the random IV, the transport
response, and the caller-chosen arguments (with `algorithm = ""`). -/
structure CycleIn : Type where
  iv : List Nat
  resp : Option HttpResp
  operate : String
  args : JsVal
  message : String

/-- Iterate `Res.api.work` (second copy) over a list of cycles; the `Bool`
is `true` iff every cycle ran without an exception. -/
def runCycles (B : Browser) : State → List CycleIn → State × Bool
  | s, [] => (s, true)
  | s, c :: cs =>
    let o := apiWork2 B c.iv c.resp s c.operate c.args "" c.message
    let r := runCycles B o.state cs
    (r.1, o.caught.isNone && r.2)

/-- Grouping for `b64.match(/.{1,64}/g)`: split into runs of at most 64
characters.  `acc` holds the current (reversed) run, `cap` the remaining
capacity of that run. -/
def chunkGo : List Char → List Char → Nat → List (List Char)
  | [], acc, _ => if acc.isEmpty then [] else [acc.reverse]
  | c :: cs, acc, 0 => acc.reverse :: chunkGo cs [c] 63
  | c :: cs, acc, cap + 1 => chunkGo cs (c :: acc) cap

/-- `s.match(/.{1,64}/g)`: `[]` corresponds to the `null` result on the
empty string. -/
def chunk64 (l : List Char) : List (List Char) := chunkGo l [] 64

/-- `s.match(/.{1,2}/g)`: pairs of characters, a trailing singleton
allowed; `[]` corresponds to `null` on the empty string. -/
def chunk2 : List Char → List (List Char)
  | [] => []
  | [a] => [[a]]
  | a :: b :: rest => [a, b] :: chunk2 rest

/-- The PEM wrapping of `RSA.getPublicKey_pem` (lines 189-199 and 793-803):
64-character folding of the Base64 body between fixed header and footer. -/
def pemString (b64 : String) : String :=
  "-----BEGIN PUBLIC KEY-----\n" ++
    String.intercalate "\n" ((chunk64 b64.data).map String.mk) ++
    "\n-----END PUBLIC KEY-----"

/-- Value of one hex digit, as `parseInt(·, 16)` accepts them. -/
def hexDigitVal (c : Char) : Option Nat :=
  if '0' ≤ c ∧ c ≤ '9' then some (c.toNat - 48)
  else if 'a' ≤ c ∧ c ≤ 'f' then some (c.toNat - 87)
  else if 'A' ≤ c ∧ c ≤ 'F' then some (c.toNat - 55)
  else none

/-- `parseInt(chunk, 16)` for a 1-2 character chunk: parses the longest
hex-digit prefix, `none` for `NaN`. -/
def parseHexChunk : List Char → Option Nat
  | [] => none
  | c :: cs =>
    match hexDigitVal c with
    | none => none
    | some v =>
      match cs with
      | [] => some v
      | d :: _ =>
        match hexDigitVal d with
        | none => some v
        | some w => some (16 * v + w)

/-- The byte list built by `new Uint8Array(cipherText.match(/.{1,2}/g).map(b
=> parseInt(b, 16)))`: `NaN` entries coerce to `0`. -/
def hexBytesOfModel (s : String) : List Nat :=
  (chunk2 s.data).map (fun c => (parseHexChunk c).getD 0)

/-- `RSA.decrypt(cipherText, { input: "hex" })` (lines 237-256 and
841-860) for an `RSAObj`: `none` models any throw inside (`私钥未初始化`,
`.match` on a non-string, `null.map` on the empty string, or a provider
`OperationError`). -/
def rsaDecryptModel (B : Browser) (r : RSAObj) (cipherText : JsVal) : Option String :=
  match r.key with
  | none => none
  | some kp =>
    match cipherText with
    | .jstr str =>
      match chunk2 str.data with
      | [] => none
      | _ =>
        match B.rsaDecrypt kp (hexBytesOfModel str) with
        | none => none
        | some pt => some (B.utf8Decode pt)
    | _ => none

/-- Observable outcome of one `Res.rs.work` call: the returned boolean,
the final channel state, and the PEM submitted to `/rs` (if the `fetch`
was reached). -/
structure RsOut : Type where
  ret : Bool
  state : State
  sentPem : Option String

/-- `Res.rs.work()` (first copy, lines 4-36; second copy, lines 1316-1348;
the copies are identical).  `kp` is the keypair handle `generateKey`
produced; the transport response is the explicit `resp` argument (`none`
for a network failure).  Note the assignment order of the source:
`S.rsa` is set before the PEM export, `S.pubPem` before the `fetch`, and
`S.aes_key` only on full success. -/
def rsWork (B : Browser) (kp : Nat) (resp : Option HttpResp) (s : State) : RsOut :=
  let rsaObj : RSAObj := { name := "RSA-OAEP", hash := "SHA-256", key := some kp }
  let s1 := { s with rsa := some rsaObj }
  let b64 := B.btoa (B.exportSpki kp)
  if b64 = "" then
    { ret := false, state := s1, sentPem := none }
  else
    let pem := pemString b64
    let s2 := { s1 with pubPem := .jstr pem }
    match resp with
    | none => { ret := false, state := s2, sentPem := some pem }
    | some r =>
      if 200 ≤ r.status ∧ r.status < 300 then
        match r.body with
        | none => { ret := false, state := s2, sentPem := some pem }
        | some result =>
          match getProp result "data" with
          | none => { ret := false, state := s2, sentPem := some pem }
          | some encryptedKey =>
            match rsaDecryptModel B rsaObj encryptedKey with
            | none => { ret := false, state := s2, sentPem := some pem }
            | some plain =>
              { ret := true, state := { s2 with aes_key := .jstr plain },
                sentPem := some pem }
      else { ret := false, state := s2, sentPem := some pem }

/-- Unary byte-to-text code used by the concrete test browser: each byte
`n` becomes `n` copies of `a` followed by one `b`. -/
def unaryEnc (l : List Nat) : List Char :=
  l.flatMap (fun n => List.replicate n 'a' ++ ['b'])

/-- Inverse of `unaryEnc`: count `a`s until each `b`. -/
def unaryParse : List Char → Nat → Option (List Nat)
  | [], 0 => some []
  | [], _ + 1 => none
  | c :: cs, acc =>
    if c = 'a' then unaryParse cs (acc + 1)
    else if c = 'b' then (unaryParse cs 0).map (acc :: ·)
    else none

theorem unaryParse_block (n : Nat) (cs : List Char) (acc : Nat) :
    unaryParse (List.replicate n 'a' ++ 'b' :: cs) acc =
      (unaryParse cs 0).map ((acc + n) :: ·) := by
  induction n generalizing acc with
  | zero => simp [unaryParse]
  | succ m ih =>
    rw [List.replicate_succ, List.cons_append]
    show unaryParse ('a' :: (List.replicate m 'a' ++ 'b' :: cs)) acc = _
    rw [unaryParse]
    simp only [if_pos rfl]
    rw [ih (acc + 1)]
    have h : acc + 1 + m = acc + (m + 1) := by omega
    rw [h]
    simp

theorem unaryParse_enc (l : List Nat) : unaryParse (unaryEnc l) 0 = some l := by
  induction l with
  | nil => rfl
  | cons n rest ih =>
    have h : unaryEnc (n :: rest) = List.replicate n 'a' ++ 'b' :: unaryEnc rest := by
      simp [unaryEnc]
    rw [h, unaryParse_block, ih]
    simp

/-- A 24-byte key literal used by the concrete test browser's JSON parse. -/
def keyB : String := "012345678901234567890123"

/-- A concrete, fully computable `Browser` instance used to instantiate
the universally quantified theorems at evaluable inputs.  Its codecs are
honest inverses (so the round-trip hypotheses are satisfiable) and its
AES-GCM marks ciphertexts with a trailing block of 16 zero bytes. -/
def mockA : Browser where
  utf8Encode := fun s => s.data.map Char.toNat
  utf8Decode := fun l => String.mk (l.map Char.ofNat)
  btoa := fun l => String.mk (unaryEnc l)
  atob := fun s => unaryParse s.data 0
  gcmEncrypt := fun _ _ pt => pt ++ List.replicate 16 0
  gcmDecrypt := fun _ _ b =>
    if 16 ≤ b.length ∧ b.drop (b.length - 16) = List.replicate 16 0 then
      some (b.take (b.length - 16))
    else none
  digest := fun l => [l.length % 256]
  rsaDecrypt := fun _ _ => some [97, 98, 99, 100, 101]
  exportSpki := fun _ => [1]
  stringify := fun _ => ""
  jsonParse := fun s =>
    if s = "R1" then
      some (.jobj (.cons "key" (.jstr keyB) (.cons "data" .jnull .nil)))
    else none

theorem mockA_utf8_rt (s : String) : mockA.utf8Decode (mockA.utf8Encode s) = s := by
  cases s with
  | mk data =>
    simp only [mockA, List.map_map]
    congr 1
    induction data with
    | nil => rfl
    | cons c cs ih => simp [ih, Char.ofNat_toNat]

theorem mockA_atob_rt (l : List Nat) : mockA.atob (mockA.btoa l) = some l := by
  simp only [mockA]
  exact unaryParse_enc l

theorem mockA_gcm_rt (k iv pt : List Nat) :
    mockA.gcmDecrypt k iv (mockA.gcmEncrypt k iv pt) = some pt := by
  simp only [mockA]
  have hlen : (pt ++ List.replicate 16 0).length - 16 = pt.length := by
    simp
  rw [if_pos]
  · rw [hlen]
    have := List.take_left pt (List.replicate (α := Nat) 16 0)
    simp_all
  · constructor
    · simp
    · rw [hlen]
      have := List.drop_left pt (List.replicate (α := Nat) 16 0)
      simp_all

/-- Variant of `mockA` whose AES-GCM provider rejects every ciphertext,
used to instantiate the tampering theorem. -/
def mockReject : Browser :=
  { mockA with gcmDecrypt := fun _ _ _ => none }

theorem apiTail_sent (rw : Bool) (B : Browser) (resp : Option HttpResp) (s1 : State)
    (ks : String) (snt : Sent) : (apiTail rw B resp s1 ks snt).sent = some snt := by
  unfold apiTail
  repeat' split
  all_goals rfl

theorem apiTail_frame (rw : Bool) (B : Browser) (resp : Option HttpResp) (s1 : State)
    (ks : String) (snt : Sent) :
    (apiTail rw B resp s1 ks snt).state.session_user = s1.session_user ∧
    (apiTail rw B resp s1 ks snt).state.rsa = s1.rsa ∧
    (apiTail rw B resp s1 ks snt).state.pubPem = s1.pubPem := by
  unfold apiTail
  repeat' split
  all_goals exact ⟨rfl, rfl, rfl⟩

theorem apiTail_rotate (rw : Bool) (B : Browser) (resp : Option HttpResp) (s1 : State)
    (ks : String) (snt : Sent) (h : (apiTail rw B resp s1 ks snt).caught = none) :
    (apiTail rw B resp s1 ks snt).state.aes_key = tailRespKey B resp ks := by
  unfold apiTail tailRespKey at *
  repeat' split at h
  all_goals simp_all [failOut]

theorem apiTail_fail (rw : Bool) (B : Browser) (resp : Option HttpResp) (s1 : State)
    (ks : String) (snt : Sent) (e : JsVal)
    (h : (apiTail rw B resp s1 ks snt).caught = some e) :
    (apiTail rw B resp s1 ks snt).ret =
      (.jbool false, if rw then e else .jstr "error", .jnum 999) ∧
    (apiTail rw B resp s1 ks snt).state.aes_key = s1.aes_key := by
  unfold apiTail at h ⊢
  revert h
  repeat' split
  all_goals intro h
  all_goals simp_all [failOut]

theorem apiWork_sent_of_check (sc rw : Bool) (B : Browser) (ivr : List Nat)
    (resp : Option HttpResp) (s : State) (op : String) (args : JsVal) (alg msg : String)
    (h : checkModel sc s = true) :
    ∃ env pl, (apiWorkCore sc rw B ivr resp s op args alg msg).sent =
      some ⟨sha256model B (jsToString s.aes_key), env, pl⟩ := by
  unfold apiWorkCore
  rw [if_pos h]
  exact ⟨_, _, apiTail_sent ..⟩

theorem apiWork_rotate (sc rw : Bool) (B : Browser) (ivr : List Nat)
    (resp : Option HttpResp) (s : State) (op : String) (args : JsVal) (alg msg : String)
    (h : (apiWorkCore sc rw B ivr resp s op args alg msg).caught = none) :
    (apiWorkCore sc rw B ivr resp s op args alg msg).state.aes_key =
      tailRespKey B resp (jsToString s.aes_key) := by
  by_cases hc : checkModel sc s
  · unfold apiWorkCore at *
    rw [if_pos hc] at h ⊢
    exact apiTail_rotate _ _ _ _ _ _ h
  · unfold apiWorkCore at h
    rw [if_neg hc] at h
    simp [failOut] at h

theorem runCycles_append (B : Browser) (s : State) (l : List CycleIn) (c : CycleIn) :
    runCycles B s (l ++ [c]) =
      ((apiWork2 B c.iv c.resp (runCycles B s l).1 c.operate c.args "" c.message).state,
       (runCycles B s l).2 &&
         (apiWork2 B c.iv c.resp (runCycles B s l).1 c.operate c.args "" c.message).caught.isNone) := by
  induction l generalizing s with
  | nil => simp [runCycles]
  | cons d ds ih =>
    simp only [List.cons_append, runCycles, List.append_eq]
    rw [ih]
    simp [Bool.and_assoc]

set_option maxRecDepth 4096 in
theorem hexPair_lt : ∀ b, b < 256 →
    hexPair b = [Nat.digitChar (b / 16), Nat.digitChar (b % 16)] := by decide

theorem digitChar_inj : ∀ m, m < 16 → ∀ n, n < 16 →
    Nat.digitChar m = Nat.digitChar n → m = n := by decide

theorem hexBlocks_inj (l1 : List Nat) : ∀ (l2 : List Nat),
    (∀ b ∈ l1, b < 256) → (∀ b ∈ l2, b < 256) →
    l1.flatMap hexPair = l2.flatMap hexPair → l1 = l2 := by
  induction l1 with
  | nil =>
    intro l2 _ h2 h
    cases l2 with
    | nil => rfl
    | cons b bs =>
      rw [List.flatMap_nil, List.flatMap_cons, hexPair_lt b (h2 b (by simp))] at h
      simp at h
  | cons a as ih =>
    intro l2 h1 h2 h
    cases l2 with
    | nil =>
      rw [List.flatMap_cons, List.flatMap_nil, hexPair_lt a (h1 a (by simp))] at h
      simp at h
    | cons b bs =>
      rw [List.flatMap_cons, List.flatMap_cons, hexPair_lt a (h1 a (by simp)),
        hexPair_lt b (h2 b (by simp))] at h
      simp only [List.cons_append, List.cons.injEq] at h
      obtain ⟨hd, hm, hrest⟩ := h
      have ha : a < 256 := h1 a (by simp)
      have hb : b < 256 := h2 b (by simp)
      have hdiv : a / 16 = b / 16 :=
        digitChar_inj _ (by omega) _ (by omega) hd
      have hmod : a % 16 = b % 16 :=
        digitChar_inj _ (by omega) _ (by omega) hm
      have hab : a = b := by omega
      have htail : as = bs :=
        ih bs (fun x hx => h1 x (by simp [hx])) (fun x hx => h2 x (by simp [hx])) hrest
      rw [hab, htail]

theorem hexOf_inj (l1 l2 : List Nat) (h1 : ∀ b ∈ l1, b < 256) (h2 : ∀ b ∈ l2, b < 256)
    (h : hexOf l1 = hexOf l2) : l1 = l2 := by
  unfold hexOf at h
  have h' : l1.flatMap hexPair = l2.flatMap hexPair := congrArg String.data h
  exact hexBlocks_inj l1 l2 h1 h2 h'

/-- A 16-character (hence 16-byte, in the test browser) key. -/
def chatKey16 : String := "0123456789abcdef"

/-- A channel state holding `chatKey16`, as after a successful handshake
(second copy: `session_user` still `null`). -/
def chanState16 : State := { initialState with aes_key := .jstr chatKey16 }

/-- Whether a runtime value is a string. -/
def isJStr : JsVal → Bool
  | .jstr _ => true
  | _ => false

/-- C9: for every key whose encoded byte length is not 16, 24 or 32, all
four symmetric operations return their failure sentinel with an empty
provider-call log — the `InvalidKeyError` throw happens before any
`importKey`/`encrypt`/`decrypt` provider call. -/
theorem c9_invalid_key_rejected (B : Browser) (ivr : List Nat) (d1 d2 d3 : String)
    (db : List Nat) (key : String)
    (h : ¬((B.utf8Encode key).length = 16 ∨ (B.utf8Encode key).length = 24 ∨
      (B.utf8Encode key).length = 32)) :
    encryptStr B ivr d1 key = (none, []) ∧
    decryptStr B d1 d2 d3 key = ("", []) ∧
    encryptBytes B ivr db key = (none, []) ∧
    decryptBytes B d1 d2 d3 key = ([], []) := by
  refine ⟨?_, ?_, ?_, ?_⟩ <;>
    simp only [encryptStr, decryptStr, encryptBytes, decryptBytes] <;>
    rw [if_neg h]

/-- Witness for C9 at a concrete 3-byte key. -/
theorem c9_invalid_key_rejected_witness :
    ¬((mockA.utf8Encode "abc").length = 16 ∨ (mockA.utf8Encode "abc").length = 24 ∨
      (mockA.utf8Encode "abc").length = 32) ∧
    (encryptStr mockA [1] "x" "abc" = (none, []) ∧
     decryptStr mockA "x" "y" "z" "abc" = ("", []) ∧
     encryptBytes mockA [1] [7] "abc" = (none, []) ∧
     decryptBytes mockA "x" "y" "z" "abc" = ([], [])) :=
  ⟨by decide, c9_invalid_key_rejected mockA [1] "x" "y" "z" [7] "abc" (by decide)⟩

/-- C2: when the symmetric key is absent (`null`/`undefined`) or the
empty string, `Res.api.work` (either copy) returns the failure triple
without any `fetch` and leaves the state untouched; when the key is a
non-empty string, the second copy's check passes, and the first copy's
check passes exactly when `session_user` is also truthy. -/
theorem c2_precondition_check (sc rw : Bool) (B : Browser) (ivr : List Nat)
    (resp : Option HttpResp) (s : State) (op : String) (args : JsVal)
    (alg msg : String) (k : String) :
    ((s.aes_key = .jnull ∨ s.aes_key = .jundefined ∨ s.aes_key = .jstr "") →
      (apiWorkCore sc rw B ivr resp s op args alg msg).ret =
        (.jbool false, if rw then .jerr chanErrMsg else .jstr "error", .jnum 999) ∧
      (apiWorkCore sc rw B ivr resp s op args alg msg).sent = none ∧
      (apiWorkCore sc rw B ivr resp s op args alg msg).state = s) ∧
    (s.aes_key = .jstr k → k ≠ "" →
      checkModel false s = true ∧
      (checkModel true s = true ↔ truthy s.session_user = true)) := by
  constructor
  · intro hbad
    have hc : checkModel sc s = false := by
      rcases hbad with h | h | h <;> simp [checkModel, truthy, h]
    unfold apiWorkCore
    simp only [hc, Bool.false_eq_true, if_false]
    exact ⟨rfl, rfl, rfl⟩
  · intro hs hk
    constructor
    · simp [checkModel, truthy, hs, hk]
    · simp [checkModel, truthy, hs, hk]

/-- Witness for C2: a `null` key fails with no `fetch`; a 16-character key
passes the second copy's check, and passes the first copy's exactly when
`session_user` is truthy. -/
theorem c2_precondition_check_witness :
    ((apiWork2 mockA [] (some ⟨200, none⟩) initialState "op" (.jobj .nil) "" "").ret =
        (.jbool false, .jerr chanErrMsg, .jnum 999) ∧
      (apiWork2 mockA [] (some ⟨200, none⟩) initialState "op" (.jobj .nil) "" "").sent = none ∧
      (apiWork2 mockA [] (some ⟨200, none⟩) initialState "op" (.jobj .nil) "" "").state =
        initialState) ∧
    (checkModel false chanState16 = true ∧
      (checkModel true chanState16 = true ↔ truthy chanState16.session_user = true)) :=
  ⟨(c2_precondition_check false true mockA [] (some ⟨200, none⟩) initialState "op"
      (.jobj .nil) "" "" "").1 (Or.inl rfl),
   (c2_precondition_check false true mockA [] (some ⟨200, none⟩) chanState16 "op"
      (.jobj .nil) "" "" chatKey16).2 rfl (by decide)⟩

/-- C8: for every key of legal byte length and every plaintext, decrypting
the output of `encryptStr` with `decryptStr` under the same key returns
the plaintext, provided the browser's codecs invert each other and its
AES-GCM decrypt inverts its encrypt. -/
theorem c8_roundtrip (B : Browser) (ivr : List Nat) (p k : String)
    (hutf : ∀ s, B.utf8Decode (B.utf8Encode s) = s)
    (hab : ∀ l, B.atob (B.btoa l) = some l)
    (hgcm : ∀ kb iv pt, B.gcmDecrypt kb iv (B.gcmEncrypt kb iv pt) = some pt)
    (hklen : (B.utf8Encode k).length = 16 ∨ (B.utf8Encode k).length = 24 ∨
      (B.utf8Encode k).length = 32) :
    ∃ blob, (encryptStr B ivr p k).1 = some blob ∧
      (decryptStr B blob.data blob.iv blob.tag k).1 = p := by
  have henc : (encryptStr B ivr p k).1 = some
      { iv := B.btoa ivr,
        data := B.btoa ((B.gcmEncrypt (B.utf8Encode k) ivr (B.utf8Encode p)).take
          ((B.gcmEncrypt (B.utf8Encode k) ivr (B.utf8Encode p)).length - 16)),
        tag := B.btoa ((B.gcmEncrypt (B.utf8Encode k) ivr (B.utf8Encode p)).drop
          ((B.gcmEncrypt (B.utf8Encode k) ivr (B.utf8Encode p)).length - 16)) } := by
    simp only [encryptStr]
    rw [if_pos hklen]
  refine ⟨_, henc, ?_⟩
  simp only [decryptStr, hab]
  rw [if_pos hklen]
  simp only [List.take_append_drop, hgcm, hutf]

/-- Witness for C8 at a concrete key and plaintext over the test browser. -/
theorem c8_roundtrip_witness :
    ∃ blob, (encryptStr mockA [3] "hello" chatKey16).1 = some blob ∧
      (decryptStr mockA blob.data blob.iv blob.tag chatKey16).1 = "hello" :=
  c8_roundtrip mockA [3] "hello" chatKey16 mockA_utf8_rt mockA_atob_rt mockA_gcm_rt
    (by decide)

/-- Base64 (test-browser code) of the bytes of `"zz"`: a response body
that decrypts fine but is not valid JSON. -/
def dataZZ : String := String.mk (unaryEnc (mockA.utf8Encode "zz"))

/-- Base64 (test-browser code) of the 16-zero-byte tag the test browser's
AES-GCM accepts. -/
def tagZ16 : String := String.mk (unaryEnc (List.replicate 16 0))

/-- A `result.data` object whose decryption succeeds but yields non-JSON. -/
def rdBadParse : JsVal :=
  .jobj (.cons "data" (.jstr dataZZ) (.cons "iv" (.jstr "b")
    (.cons "tag" (.jstr tagZ16) .nil)))

/-- A 200 response around `rdBadParse`. -/
def respBadParse : Option HttpResp :=
  some ⟨200, some (.jobj (.cons "data" rdBadParse
    (.cons "message" (.jstr "m") (.cons "code" (.jnum 0) .nil))))⟩

/-- C3 counterexample: on an HTTP 500 the call does return the sentinel
triple and does not rotate the key, but `S.session_user` — written before
the `fetch` — changes from `null` to the hex hash of the current key, so
the channel state is not left untouched as the claim states. -/
theorem c3_counterexample :
    (apiWork2 mockA [] (some ⟨500, none⟩) chanState16 "op" (.jobj .nil) "" "").ret =
      (.jbool false, .jerr "HTTP 错误: 500", .jnum 999) ∧
    (apiWork2 mockA [] (some ⟨500, none⟩) chanState16 "op" (.jobj .nil) "" "").state.aes_key =
      chanState16.aes_key ∧
    chanState16.session_user = .jnull ∧
    (apiWork2 mockA [] (some ⟨500, none⟩) chanState16 "op" (.jobj .nil) "" "").state.session_user =
      .jstr "10" ∧
    (apiWork2 mockA [] (some ⟨500, none⟩) chanState16 "op" (.jobj .nil) "" "").state.session_user ≠
      chanState16.session_user :=
  ⟨rfl, rfl, rfl, rfl,
   fun h => JsVal.noConfusion (show JsVal.jstr "10" = JsVal.jnull from h)⟩

/-- C3 amended: on a non-2xx status `Res.api.work` (either copy) returns
the sentinel-999 failure triple and leaves `aes_key`, `rsa` and `pubPem`
unchanged, but `session_user` has been overwritten with the hex SHA-256
of the current key (computed before the `fetch`). -/
theorem c3_transport_failure_frame (sc rw : Bool) (B : Browser) (ivr : List Nat)
    (st : Nat) (body : Option JsVal) (s : State) (op : String) (args : JsVal)
    (alg msg : String)
    (hchk : checkModel sc s = true)
    (hst : ¬(200 ≤ st ∧ st < 300)) :
    (apiWorkCore sc rw B ivr (some ⟨st, body⟩) s op args alg msg).ret =
      (.jbool false, if rw then .jerr ("HTTP 错误: " ++ toString st) else .jstr "error",
       .jnum 999) ∧
    (apiWorkCore sc rw B ivr (some ⟨st, body⟩) s op args alg msg).state.aes_key = s.aes_key ∧
    (apiWorkCore sc rw B ivr (some ⟨st, body⟩) s op args alg msg).state.rsa = s.rsa ∧
    (apiWorkCore sc rw B ivr (some ⟨st, body⟩) s op args alg msg).state.pubPem = s.pubPem ∧
    (apiWorkCore sc rw B ivr (some ⟨st, body⟩) s op args alg msg).state.session_user =
      .jstr (sha256model B (jsToString s.aes_key)) := by
  unfold apiWorkCore
  rw [if_pos hchk]
  simp only [apiTail]
  rw [if_neg hst]
  exact ⟨rfl, rfl, rfl, rfl, rfl⟩

/-- Witness for the amended C3 at a concrete 500 response. -/
theorem c3_transport_failure_frame_witness :
    (apiWork2 mockA [] (some ⟨500, none⟩) chanState16 "op" (.jobj .nil) "" "").ret =
      (.jbool false, .jerr "HTTP 错误: 500", .jnum 999) ∧
    (apiWork2 mockA [] (some ⟨500, none⟩) chanState16 "op" (.jobj .nil) "" "").state.aes_key =
      chanState16.aes_key ∧
    (apiWork2 mockA [] (some ⟨500, none⟩) chanState16 "op" (.jobj .nil) "" "").state.rsa =
      chanState16.rsa ∧
    (apiWork2 mockA [] (some ⟨500, none⟩) chanState16 "op" (.jobj .nil) "" "").state.pubPem =
      chanState16.pubPem ∧
    (apiWork2 mockA [] (some ⟨500, none⟩) chanState16 "op" (.jobj .nil) "" "").state.session_user =
      .jstr (sha256model mockA (jsToString chanState16.aes_key)) :=
  c3_transport_failure_frame false true mockA [] 500 none chanState16 "op" (.jobj .nil)
    "" "" (by decide) (by decide)

/-- C7 counterexample: in the second copy a step-2-9 failure (here: the
decrypted response is not valid JSON) returns the caught exception object
itself as the triple's second element, not a string description. -/
theorem c7_counterexample :
    (apiWork2 mockA [0] respBadParse chanState16 "op" (.jobj .nil) "" "").ret =
      (.jbool false, .jerr "SyntaxError", .jnum 999) ∧
    isJStr (.jerr "SyntaxError") = false :=
  ⟨rfl, rfl⟩

/-- C7 amended: on any failure inside the `try` body the key is not
rotated and the call returns `(false, m, 999)`, where `m` is the string
`"error"` in the first copy but the raw caught exception value in the
second copy. -/
theorem c7_failure_triple_shape (sc rw : Bool) (B : Browser) (ivr : List Nat)
    (resp : Option HttpResp) (s : State) (op : String) (args : JsVal)
    (alg msg : String) (e : JsVal)
    (hc : (apiWorkCore sc rw B ivr resp s op args alg msg).caught = some e) :
    (apiWorkCore sc rw B ivr resp s op args alg msg).ret =
      (.jbool false, if rw then e else .jstr "error", .jnum 999) ∧
    (apiWorkCore sc rw B ivr resp s op args alg msg).state.aes_key = s.aes_key := by
  by_cases hchk : checkModel sc s = true
  · unfold apiWorkCore at hc ⊢
    rw [if_pos hchk] at hc ⊢
    have h := apiTail_fail rw B resp _ _ _ e hc
    exact ⟨h.1, h.2⟩
  · unfold apiWorkCore at hc ⊢
    rw [if_neg hchk] at hc ⊢
    have he : JsVal.jerr chanErrMsg = e := by simpa [failOut] using hc
    subst he
    exact ⟨rfl, rfl⟩

/-- Witness for the amended C7 at a concrete parse failure. -/
theorem c7_failure_triple_shape_witness :
    (apiWork2 mockA [0] respBadParse chanState16 "op" (.jobj .nil) "" "").caught =
      some (.jerr "SyntaxError") ∧
    ((apiWork2 mockA [0] respBadParse chanState16 "op" (.jobj .nil) "" "").ret =
      (.jbool false, .jerr "SyntaxError", .jnum 999) ∧
     (apiWork2 mockA [0] respBadParse chanState16 "op" (.jobj .nil) "" "").state.aes_key =
      chanState16.aes_key) :=
  ⟨rfl, c7_failure_triple_shape false true mockA [0] respBadParse chanState16 "op"
    (.jobj .nil) "" "" (.jerr "SyntaxError") rfl⟩

/-- C4: a response whose reassembled `data ++ tag` blob is not a genuine
AES-GCM encryption under the current key (so the provider rejects it —
`hauth` is GCM authenticity, `htamper` says the blob is no genuine
ciphertext) makes `decryptStr` return its failure sentinel, and
`Res.api.work` returns the failure triple without rotating `aes_key`. -/
theorem c4_tamper_no_rotation (sc rw : Bool) (B : Browser) (ivr : List Nat)
    (st : Nat) (fs : JsFields) (result : JsVal) (d i t : String)
    (ivB ctB tagB : List Nat) (s : State) (op : String) (args : JsVal)
    (alg msg : String)
    (hchk : checkModel sc s = true)
    (hst : 200 ≤ st ∧ st < 300)
    (hrd : getProp result "data" = some (.jobj fs))
    (hd : lookupField fs "data" = .jstr d)
    (hi : lookupField fs "iv" = .jstr i)
    (ht : lookupField fs "tag" = .jstr t)
    (hklen : (B.utf8Encode (jsToString s.aes_key)).length = 16 ∨
      (B.utf8Encode (jsToString s.aes_key)).length = 24 ∨
      (B.utf8Encode (jsToString s.aes_key)).length = 32)
    (hivb : B.atob i = some ivB)
    (hctb : B.atob d = some ctB)
    (htagb : B.atob t = some tagB)
    (htamper : ∀ pt, ctB ++ tagB ≠ B.gcmEncrypt (B.utf8Encode (jsToString s.aes_key)) ivB pt)
    (hauth : ∀ kb iv b, (∀ pt, b ≠ B.gcmEncrypt kb iv pt) → B.gcmDecrypt kb iv b = none)
    (hparse : B.jsonParse "" = none) :
    (decryptStr B d i t (jsToString s.aes_key)).1 = "" ∧
    (apiWorkCore sc rw B ivr (some ⟨st, some result⟩) s op args alg msg).ret =
      (.jbool false, if rw then .jerr "SyntaxError" else .jstr "error", .jnum 999) ∧
    (apiWorkCore sc rw B ivr (some ⟨st, some result⟩) s op args alg msg).state.aes_key =
      s.aes_key := by
  have hdec : B.gcmDecrypt (B.utf8Encode (jsToString s.aes_key)) ivB (ctB ++ tagB) = none :=
    hauth _ _ _ htamper
  have hds : (decryptStr B d i t (jsToString s.aes_key)).1 = "" := by
    simp only [decryptStr]
    rw [if_pos hklen]
    simp [hivb, hctb, htagb, hdec]
  have hkey : decStrOf B (.jobj fs) (jsToString s.aes_key) = "" := by
    unfold decStrOf
    rw [show propOrUndef (.jobj fs) "data" = lookupField fs "data" from rfl, hd]
    rw [show propOrUndef (.jobj fs) "iv" = lookupField fs "iv" from rfl, hi]
    rw [show propOrUndef (.jobj fs) "tag" = lookupField fs "tag" from rfl, ht]
    exact hds
  refine ⟨hds, ?_⟩
  unfold apiWorkCore
  rw [if_pos hchk]
  simp only [apiTail]
  rw [if_pos hst]
  simp only [hrd, hkey, hparse]
  exact ⟨rfl, rfl⟩

/-- Base64 (test-browser code) of sixteen 1-bytes: a tag the test
browser's AES-GCM always rejects. -/
def tagOnes : String := String.mk (unaryEnc (List.replicate 16 1))

/-- The `result.data` fields of the tampered response used in the C4
witness. -/
def fsTampered : JsFields :=
  .cons "data" (.jstr "") (.cons "iv" (.jstr "b") (.cons "tag" (.jstr tagOnes) .nil))

/-- The tampered 200 response body used in the C4 witness. -/
def resultTampered : JsVal :=
  .jobj (.cons "data" (.jobj fsTampered)
    (.cons "message" (.jstr "m") (.cons "code" (.jnum 0) .nil)))

/-- Witness for C4 over the rejecting test browser at a concrete tampered
response. -/
theorem c4_tamper_no_rotation_witness :
    (decryptStr mockReject "" "b" tagOnes chatKey16).1 = "" ∧
    (apiWork2 mockReject [0] (some ⟨200, some resultTampered⟩) chanState16 "op"
      (.jobj .nil) "" "").ret = (.jbool false, .jerr "SyntaxError", .jnum 999) ∧
    (apiWork2 mockReject [0] (some ⟨200, some resultTampered⟩) chanState16 "op"
      (.jobj .nil) "" "").state.aes_key = chanState16.aes_key :=
  c4_tamper_no_rotation false true mockReject [0] 200 fsTampered resultTampered
    "" "b" tagOnes [0] [] (List.replicate 16 1) chanState16 "op" (.jobj .nil) "" ""
    (by decide) (by decide) rfl rfl rfl rfl (by decide) rfl rfl rfl
    (fun pt h => by
      have hl : (16 : Nat) = pt.length + 16 := by
        simpa [mockReject, mockA] using congrArg List.length h
      have hp : pt = [] := by
        have h0 : pt.length = 0 := by omega
        exact List.eq_nil_of_length_eq_zero h0
      subst hp
      exact absurd h (by decide))
    (fun _ _ _ _ => rfl) rfl

/-- C5 counterexample: `Res.rs.work` installs a 5-byte key recovered from
the response and still returns `true` — there is no byte-length
validation in the handshake. -/
theorem c5_counterexample :
    (rsWork mockA 7 (some ⟨200, some (.jobj (.cons "data" (.jstr "00") .nil))⟩)
      initialState).ret = true ∧
    (rsWork mockA 7 (some ⟨200, some (.jobj (.cons "data" (.jstr "00") .nil))⟩)
      initialState).state.aes_key = .jstr "abcde" ∧
    (mockA.utf8Encode "abcde").length = 5 ∧
    ¬((5 : Nat) = 16 ∨ (5 : Nat) = 24 ∨ (5 : Nat) = 32) :=
  ⟨rfl, rfl, rfl, by decide⟩

/-- C5 amended: whenever the handshake reaches a successful RSA
decryption, the decoded string is installed as the symmetric key with no
byte-length validation, and `Res.rs.work` returns `true` regardless of
the key's length. -/
theorem c5_install_without_validation (B : Browser) (kp : Nat) (st : Nat)
    (result : JsVal) (ek : String) (pt : List Nat) (s : State)
    (hb64 : B.btoa (B.exportSpki kp) ≠ "")
    (hst : 200 ≤ st ∧ st < 300)
    (hek : getProp result "data" = some (.jstr ek))
    (hch : chunk2 ek.data ≠ [])
    (hdec : B.rsaDecrypt kp (hexBytesOfModel ek) = some pt) :
    (rsWork B kp (some ⟨st, some result⟩) s).ret = true ∧
    (rsWork B kp (some ⟨st, some result⟩) s).state.aes_key =
      .jstr (B.utf8Decode pt) := by
  unfold rsWork
  rw [if_neg hb64]
  simp only []
  rw [if_pos hst]
  simp only [hek]
  unfold rsaDecryptModel
  simp only []
  cases hc : chunk2 ek.data with
  | nil => exact absurd hc hch
  | cons a as =>
    simp only [hdec]
    refine ⟨?_, ?_⟩ <;> first | rfl | trivial

/-- Witness for the amended C5 at the concrete response of the
counterexample. -/
theorem c5_install_without_validation_witness :
    (rsWork mockA 7 (some ⟨200, some (.jobj (.cons "data" (.jstr "00") .nil))⟩)
      initialState).ret = true ∧
    (rsWork mockA 7 (some ⟨200, some (.jobj (.cons "data" (.jstr "00") .nil))⟩)
      initialState).state.aes_key = .jstr (mockA.utf8Decode [97, 98, 99, 100, 101]) :=
  c5_install_without_validation mockA 7 200 (.jobj (.cons "data" (.jstr "00") .nil))
    "00" [97, 98, 99, 100, 101] initialState (by decide) (by decide) rfl (by decide) rfl

/-- C6: with a non-empty `algorithm` the commented-out compression branch
leaves `content` undefined, yet the call still computes the session
header and POSTs the envelope — the outer envelope is sent with
`compression: true` and no encrypted content, instead of failing with an
unsupported-algorithm error before any network call. -/
theorem c6_envelope_sent_without_content :
    (apiWork2 mockA [] (some ⟨500, none⟩) chanState16 "x" (.jobj .nil) "gzip" "").sent.isSome =
      true ∧
    ((apiWork2 mockA [] (some ⟨500, none⟩) chanState16 "x" (.jobj .nil) "gzip" "").sent.map
      (fun sn => propOrUndef sn.envelope "content")) = some .jundefined ∧
    ((apiWork2 mockA [] (some ⟨500, none⟩) chanState16 "x" (.jobj .nil) "gzip" "").sent.map
      (fun sn => propOrUndef sn.envelope "compression")) = some (.jbool true) ∧
    ((apiWork2 mockA [] (some ⟨500, none⟩) chanState16 "x" (.jobj .nil) "gzip" "").sent.map
      (fun sn => propOrUndef sn.envelope "algorithm")) = some (.jstr "gzip") :=
  ⟨rfl, rfl, rfl, rfl⟩

/-- C10: whenever `Res.rs.work` fails after the PEM export succeeded (at
the `fetch`, the status check, `res.json()`, `result.data`, or the
decryption), the new keypair object and its PEM export are already
installed in `S.rsa` and `S.pubPem`, while `S.aes_key` (and
`S.session_user`) keep their pre-call values, and the call returns
`false` rather than throwing. -/
theorem c10_handshake_failure_frame (B : Browser) (kp : Nat) (resp : Option HttpResp)
    (s : State)
    (hpem : B.btoa (B.exportSpki kp) ≠ "")
    (hfail : (rsWork B kp resp s).ret = false) :
    (rsWork B kp resp s).state.rsa =
      some { name := "RSA-OAEP", hash := "SHA-256", key := some kp } ∧
    (rsWork B kp resp s).state.pubPem = .jstr (pemString (B.btoa (B.exportSpki kp))) ∧
    (rsWork B kp resp s).state.aes_key = s.aes_key ∧
    (rsWork B kp resp s).state.session_user = s.session_user := by
  unfold rsWork at hfail ⊢
  rw [if_neg hpem] at hfail ⊢
  revert hfail
  repeat' split
  all_goals intro hfail
  all_goals first
    | exact ⟨rfl, rfl, rfl, rfl⟩
    | simp at hfail

/-- Witness for C10 at a concrete 500 response from `/rs`. -/
theorem c10_handshake_failure_frame_witness :
    (rsWork mockA 7 (some ⟨500, none⟩) initialState).state.rsa =
      some { name := "RSA-OAEP", hash := "SHA-256", key := some 7 } ∧
    (rsWork mockA 7 (some ⟨500, none⟩) initialState).state.pubPem =
      .jstr (pemString (mockA.btoa (mockA.exportSpki 7))) ∧
    (rsWork mockA 7 (some ⟨500, none⟩) initialState).state.aes_key =
      initialState.aes_key ∧
    (rsWork mockA 7 (some ⟨500, none⟩) initialState).state.session_user =
      initialState.session_user :=
  c10_handshake_failure_frame mockA 7 (some ⟨500, none⟩) initialState
    (by decide) rfl

/-- C1: after any run of `N ≥ 1` exception-free cycles (written as
`ins ++ [c]`), the next call computes its `session_user` header freshly as
the hex SHA-256 of the current key; that current key is exactly
`parsed.key` of the last response (decrypted under the key that preceded
it); and — whenever the digests differ (SHA-256 collision-freedom, a
property of the external provider) — the header differs from the hash of
the handshake key and from the hash of the key of cycle `N-1`. -/
theorem c1_session_id_rotation (B : Browser) (s0 : State) (ins : List CycleIn)
    (c cnext : CycleIn) (sN : State)
    (hsN : sN = (runCycles B s0 (ins ++ [c])).1)
    (hsucc : (runCycles B s0 (ins ++ [c])).2 = true)
    (htr : truthy sN.aes_key = true) :
    (∃ env pl,
      (apiWork2 B cnext.iv cnext.resp sN cnext.operate cnext.args "" cnext.message).sent =
        some ⟨sha256model B (jsToString sN.aes_key), env, pl⟩) ∧
    sN.aes_key = tailRespKey B c.resp (jsToString (runCycles B s0 ins).1.aes_key) ∧
    (B.digest (B.utf8Encode (jsToString sN.aes_key)) ≠
        B.digest (B.utf8Encode (jsToString s0.aes_key)) →
      (∀ b ∈ B.digest (B.utf8Encode (jsToString sN.aes_key)), b < 256) →
      (∀ b ∈ B.digest (B.utf8Encode (jsToString s0.aes_key)), b < 256) →
      sha256model B (jsToString sN.aes_key) ≠ sha256model B (jsToString s0.aes_key)) ∧
    (B.digest (B.utf8Encode (jsToString sN.aes_key)) ≠
        B.digest (B.utf8Encode (jsToString (runCycles B s0 ins).1.aes_key)) →
      (∀ b ∈ B.digest (B.utf8Encode (jsToString sN.aes_key)), b < 256) →
      (∀ b ∈ B.digest (B.utf8Encode (jsToString (runCycles B s0 ins).1.aes_key)), b < 256) →
      sha256model B (jsToString sN.aes_key) ≠
        sha256model B (jsToString (runCycles B s0 ins).1.aes_key)) := by
  have happ := runCycles_append B s0 ins c
  have hsucc' : (apiWork2 B c.iv c.resp (runCycles B s0 ins).1 c.operate c.args ""
      c.message).caught = none := by
    rw [happ] at hsucc
    have h2 := (Bool.and_eq_true _ _).mp hsucc
    exact Option.isNone_iff_eq_none.mp h2.2
  have hstate : sN = (apiWork2 B c.iv c.resp (runCycles B s0 ins).1 c.operate c.args ""
      c.message).state := by
    rw [hsN, happ]
  refine ⟨?_, ?_, ?_, ?_⟩
  · have hchk : checkModel false sN = true := by
      simp [checkModel, htr]
    exact apiWork_sent_of_check false true B cnext.iv cnext.resp sN cnext.operate
      cnext.args "" cnext.message hchk
  · rw [hstate]
    exact apiWork_rotate false true B c.iv c.resp (runCycles B s0 ins).1 c.operate
      c.args "" c.message hsucc'
  · intro hd hb1 hb2 heq
    exact hd (hexOf_inj _ _ hb1 hb2 heq)
  · intro hd hb1 hb2 heq
    exact hd (hexOf_inj _ _ hb1 hb2 heq)

/-- Base64 (test-browser code) of the bytes of `"R1"`: a response body the
test browser's JSON parse maps to an object carrying a fresh 24-byte key. -/
def dataR1 : String := String.mk (unaryEnc (mockA.utf8Encode "R1"))

/-- A well-formed `result.data` object for a fully successful cycle over
the test browser. -/
def rdGood : JsVal :=
  .jobj (.cons "data" (.jstr dataR1) (.cons "iv" (.jstr "b")
    (.cons "tag" (.jstr tagZ16) .nil)))

/-- A 200 response around `rdGood`. -/
def respGood : Option HttpResp :=
  some ⟨200, some (.jobj (.cons "data" rdGood
    (.cons "message" (.jstr "m") (.cons "code" (.jnum 0) .nil))))⟩

/-- One fully successful cycle input over the test browser. -/
def cycleGood : CycleIn := ⟨[0], respGood, "op", .jobj .nil, ""⟩

/-- The follow-up call (its response is irrelevant to what is sent). -/
def cycleNext : CycleIn := ⟨[0], some ⟨500, none⟩, "op2", .jobj .nil, ""⟩

/-- Witness for C1: after one successful cycle the next call's header is
the hash of the rotated key. -/
theorem c1_session_id_rotation_witness :
    ∃ env pl,
      (apiWork2 mockA cycleNext.iv cycleNext.resp
        (runCycles mockA chanState16 ([] ++ [cycleGood])).1 cycleNext.operate
        cycleNext.args "" cycleNext.message).sent =
      some ⟨sha256model mockA
        (jsToString (runCycles mockA chanState16 ([] ++ [cycleGood])).1.aes_key),
        env, pl⟩ :=
  (c1_session_id_rotation mockA chanState16 [] cycleGood cycleNext
    (runCycles mockA chanState16 ([] ++ [cycleGood])).1 rfl rfl rfl).1

end Chatroom
